import Mathlib

/-!
Shallow embedding of the zenml excerpt:
* `src/zenml/zen_server/routers/code_repositories_endpoints.py`
* `src/zenml/zen_server/routers/pipeline_deployments_endpoints.py`
* `src/zenml/zen_stores/migrations/versions/41b28cae31ce_make_artifacts_workspace_scoped.py`

Route handlers are embedded as pure functions from an environment `Env`
(bundling the external collaborators `zen_store()`, the RBAC permission
decision, `workload_manager()` and the `authorize` security dependency) and
the request parameters to a result together with a trace of the externally
observable calls (`Ev`).  Identifiers (`UUID`) are embedded as `Nat`;
`workspace_name_or_id : Optional[Union[str, UUID]]` is embedded as
`Option String` (Python truthiness of the argument is `isSome` and
non-empty, since `UUID` values are always truthy and a `str` is truthy iff
non-empty).
-/

namespace ZenML

/-- Embedding of Python exceptions surfaced by a route handler; `handle_exceptions`
translates them to the HTTP responses 401/403/404/409/422.  `illegalOperation`
stands for `zenml.exceptions.IllegalOperationError`. -/
inductive HandlerErr where
  | unauthorized
  | forbidden
  | notFound
  | illegalOperation
deriving DecidableEq, Repr

/-- Embedding of `zenml.zen_server.rbac.models.ResourceType` members used here. -/
inductive ResourceType where
  | code_repository
  | pipeline_deployment
deriving DecidableEq, Repr

/-- RBAC action verified by the `verify_permissions_and_*` dispatch. -/
inductive Action where
  | create
  | read
  | list
  | update
  | delete
deriving DecidableEq, Repr

/-- Modelled from the spec: `WorkspaceResponse` (from `zenml.models`, not in
src) — the response model returned by `zen_store().get_workspace`, carrying the
workspace id. -/
structure WorkspaceResponse where
  id : Nat
  name : String
deriving DecidableEq, Repr

/-- Modelled from the spec: `CodeRepositoryRequest` (from `zenml.models`, not
in src) — create request model with a workspace scoping field. -/
structure CodeRepositoryRequest where
  workspace : Nat
  name : String
deriving DecidableEq, Repr

/-- Modelled from the spec: `CodeRepositoryResponse` (from `zenml.models`,
not in src). -/
structure CodeRepositoryResponse where
  id : Nat
deriving DecidableEq, Repr

/-- Modelled from the spec: `CodeRepositoryUpdate` (from `zenml.models`, not
in src). -/
structure CodeRepositoryUpdate where
  name : Option String
deriving DecidableEq, Repr

/-- Modelled from the spec: `CodeRepositoryFilter` (from `zenml.models`, not
in src) — filter model used for pagination, sorting, filtering, with a
workspace scope field settable by `set_scope_workspace`. -/
structure CodeRepositoryFilter where
  scope_workspace : Option Nat
  name : Option String
deriving DecidableEq, Repr

/-- Modelled from the spec: `WorkspaceScopedFilter.set_scope_workspace` (not
in src) — sets the filter model's workspace scope to the given workspace id. -/
def CodeRepositoryFilter.set_scope_workspace
    (f : CodeRepositoryFilter) (workspace_id : Nat) : CodeRepositoryFilter :=
  { f with scope_workspace := some workspace_id }

/-- Modelled from the spec: `PipelineDeploymentRequest` (from `zenml.models`,
not in src) — create request model with a workspace scoping field. -/
structure PipelineDeploymentRequest where
  workspace : Nat
  name : String
deriving DecidableEq, Repr

/-- Modelled from the spec: `PipelineDeploymentResponse` (from `zenml.models`,
not in src). -/
structure PipelineDeploymentResponse where
  id : Nat
deriving DecidableEq, Repr

/-- Modelled from the spec: `PipelineDeploymentFilter` (from `zenml.models`,
not in src) — filter model with a workspace scope field settable by
`set_scope_workspace`. -/
structure PipelineDeploymentFilter where
  scope_workspace : Option Nat
  name : Option String
deriving DecidableEq, Repr

/-- Modelled from the spec: `WorkspaceScopedFilter.set_scope_workspace` (not
in src), on deployment filters. -/
def PipelineDeploymentFilter.set_scope_workspace
    (f : PipelineDeploymentFilter) (workspace_id : Nat) : PipelineDeploymentFilter :=
  { f with scope_workspace := some workspace_id }

/-- Externally observable calls a route handler makes, in order. -/
inductive Ev where
  | getWorkspace (arg : String)
  | permissionCheck (resource : ResourceType) (action : Action)
  | storeCreateRepo (req : CodeRepositoryRequest)
  | storeListRepos (filter : CodeRepositoryFilter) (hydrate : Bool)
  | storeGetRepo (id : Nat) (hydrate : Bool)
  | storeUpdateRepo (id : Nat) (update : CodeRepositoryUpdate)
  | storeDeleteRepo (id : Nat)
  | storeCreateDeployment (req : PipelineDeploymentRequest)
  | storeListDeployments (filter : PipelineDeploymentFilter) (hydrate : Bool)
  | storeGetDeployment (id : Nat) (hydrate : Bool)
  | storeDeleteDeployment (id : Nat)
  | workloadGetLogs (workload_id : Nat)
deriving DecidableEq, Repr

/-- Whether an event is an invocation of an underlying store CRUD method
(`zen_store().create_* / list_* / get_* / update_* / delete_*`). -/
def Ev.isStoreCall : Ev → Bool
  | .storeCreateRepo _ => true
  | .storeListRepos _ _ => true
  | .storeGetRepo _ _ => true
  | .storeUpdateRepo _ _ => true
  | .storeDeleteRepo _ => true
  | .storeCreateDeployment _ => true
  | .storeListDeployments _ _ => true
  | .storeGetDeployment _ _ => true
  | .storeDeleteDeployment _ => true
  | _ => false

/-- Whether an event is an RBAC permission verification. -/
def Ev.isPermissionCheck : Ev → Bool
  | .permissionCheck _ _ => true
  | _ => false

/-- Whether an event is a `zen_store().get_workspace` resolution. -/
def Ev.isGetWorkspace : Ev → Bool
  | .getWorkspace _ => true
  | _ => false

/-- The external collaborators of the route handlers: the store methods
reached through `zen_store()`, the RBAC permission decision queried by the
`verify_permissions_and_*` dispatch, the `authorize` security dependency's
outcome, `workload_manager().get_logs` and the server configuration flag. -/
structure Env where
  authorized : Bool
  hasPermission : ResourceType → Action → Bool
  get_workspace : String → Option WorkspaceResponse
  create_code_repository : CodeRepositoryRequest → CodeRepositoryResponse
  list_code_repositories : CodeRepositoryFilter → Bool → List CodeRepositoryResponse
  get_code_repository : Nat → Bool → Option CodeRepositoryResponse
  update_code_repository : Nat → CodeRepositoryUpdate → CodeRepositoryResponse
  create_deployment : PipelineDeploymentRequest → PipelineDeploymentResponse
  list_deployments : PipelineDeploymentFilter → Bool → List PipelineDeploymentResponse
  get_deployment : Nat → Bool → Option PipelineDeploymentResponse
  workload_get_logs : Nat → String
  workload_manager_enabled : Bool

/-- Result of a route handler: the value returned (or the exception raised,
as translated by `handle_exceptions`) together with the trace of external
calls made by the handler body. -/
abbrev HandlerResult (α : Type) := Except HandlerErr α × List Ev

/-- Modelled from the spec: `verify_permissions_and_create_entity`
(`zenml.zen_server.rbac.endpoint_utils`, not in src) — the permission-checked
CRUD dispatch for creation: verifies the RBAC create permission for the
resource type and, only on success, delegates to the store create method. -/
def verify_permissions_and_create_entity {Req Resp : Type}
    (granted : Bool) (resource_type : ResourceType)
    (storeEv : Req → Ev) (create_method : Req → Resp)
    (request_model : Req) : HandlerResult Resp :=
  if granted then
    (.ok (create_method request_model),
      [.permissionCheck resource_type .create, storeEv request_model])
  else
    (.error .forbidden, [.permissionCheck resource_type .create])

/-- Modelled from the spec: `verify_permissions_and_list_entities`
(`zenml.zen_server.rbac.endpoint_utils`, not in src) — the permission-checked
CRUD dispatch for listing: verifies the RBAC list permission for the resource
type and, only on success, delegates to the store list method with the filter
model and the hydrate flag. -/
def verify_permissions_and_list_entities {F Resp : Type}
    (granted : Bool) (resource_type : ResourceType)
    (storeEv : F → Bool → Ev) (list_method : F → Bool → List Resp)
    (filter_model : F) (hydrate : Bool) : HandlerResult (List Resp) :=
  if granted then
    (.ok (list_method filter_model hydrate),
      [.permissionCheck resource_type .list, storeEv filter_model hydrate])
  else
    (.error .forbidden, [.permissionCheck resource_type .list])

/-- Modelled from the spec: `verify_permissions_and_get_entity`
(`zenml.zen_server.rbac.endpoint_utils`, not in src) — the permission-checked
CRUD dispatch for reading: verifies the RBAC read permission and, only on
success, delegates to the store get method with the id and the hydrate flag
(a missing entity surfaces as a 404). -/
def verify_permissions_and_get_entity {Resp : Type}
    (granted : Bool) (resource_type : ResourceType)
    (storeEv : Nat → Bool → Ev) (get_method : Nat → Bool → Option Resp)
    (id : Nat) (hydrate : Bool) : HandlerResult Resp :=
  if granted then
    match get_method id hydrate with
    | some resp =>
      (.ok resp, [.permissionCheck resource_type .read, storeEv id hydrate])
    | none =>
      (.error .notFound, [.permissionCheck resource_type .read, storeEv id hydrate])
  else
    (.error .forbidden, [.permissionCheck resource_type .read])

/-- Modelled from the spec: `verify_permissions_and_update_entity`
(`zenml.zen_server.rbac.endpoint_utils`, not in src) — the permission-checked
CRUD dispatch for updating: verifies the RBAC update permission and, only on
success, fetches the entity through the store get method (404 when missing)
and delegates to the store update method. -/
def verify_permissions_and_update_entity {Upd Resp : Type}
    (granted : Bool) (resource_type : ResourceType)
    (getEv : Nat → Bool → Ev) (updateEv : Nat → Upd → Ev)
    (get_method : Nat → Bool → Option Resp)
    (update_method : Nat → Upd → Resp)
    (id : Nat) (update_model : Upd) : HandlerResult Resp :=
  if granted then
    match get_method id true with
    | some _ =>
      (.ok (update_method id update_model),
        [.permissionCheck resource_type .update, getEv id true, updateEv id update_model])
    | none =>
      (.error .notFound, [.permissionCheck resource_type .update, getEv id true])
  else
    (.error .forbidden, [.permissionCheck resource_type .update])

/-- Modelled from the spec: `verify_permissions_and_delete_entity`
(`zenml.zen_server.rbac.endpoint_utils`, not in src) — the permission-checked
CRUD dispatch for deletion: verifies the RBAC delete permission and, only on
success, fetches the entity through the store get method (404 when missing)
and delegates to the store delete method. -/
def verify_permissions_and_delete_entity {Resp : Type}
    (granted : Bool) (resource_type : ResourceType)
    (getEv : Nat → Bool → Ev) (deleteEv : Nat → Ev)
    (get_method : Nat → Bool → Option Resp)
    (id : Nat) : HandlerResult Unit :=
  if granted then
    match get_method id true with
    | some _ =>
      (.ok (),
        [.permissionCheck resource_type .delete, getEv id true, deleteEv id])
    | none =>
      (.error .notFound, [.permissionCheck resource_type .delete, getEv id true])
  else
    (.error .forbidden, [.permissionCheck resource_type .delete])

/-- Embedding of the shared `if workspace_name_or_id:` pattern at the head of
the four workspace-scoped handlers: when the argument is truthy (present and
non-empty), resolves the workspace via `zen_store().get_workspace` and yields
its id (a failed resolution surfaces as a 404); otherwise yields nothing and
performs no external call. -/
def scopeLookup (env : Env) : Option String → HandlerResult (Option Nat)
  | none => (.ok none, [])
  | some s =>
    if s.isEmpty then (.ok none, [])
    else
      match env.get_workspace s with
      | none => (.error .notFound, [.getWorkspace s])
      | some workspace => (.ok (some workspace.id), [.getWorkspace s])

/-- Raised-exceptions section of `create_code_repository`'s docstring in the
source: it declares `IllegalOperationError: If the workspace specified in the
code repository does not match the current workspace.` -/
def create_code_repository_docstring_raises : List String :=
  ["IllegalOperationError"]

/-- Embedding of `create_code_repository`
(`code_repositories_endpoints.py`): if `workspace_name_or_id` is truthy, the
workspace is resolved and the request model's `workspace` field overwritten
with its id; then the permission-checked create dispatch runs.  The
`authorize` security dependency gates the body (401 otherwise). -/
def create_code_repository (env : Env) (code_repository : CodeRepositoryRequest)
    (workspace_name_or_id : Option String := none) :
    HandlerResult CodeRepositoryResponse :=
  if env.authorized then
    match scopeLookup env workspace_name_or_id with
    | (.error e, evs) => (.error e, evs)
    | (.ok wid, evs) =>
      let code_repository :=
        match wid with
        | some i => { code_repository with workspace := i }
        | none => code_repository
      let r := verify_permissions_and_create_entity
        (env.hasPermission .code_repository .create) .code_repository
        Ev.storeCreateRepo env.create_code_repository code_repository
      (r.1, evs ++ r.2)
  else (.error .unauthorized, [])

/-- Embedding of `list_code_repositories`
(`code_repositories_endpoints.py`): if `workspace_name_or_id` is truthy, the
workspace is resolved and `set_scope_workspace` is called on the filter model
with its id; then the permission-checked list dispatch runs. -/
def list_code_repositories (env : Env) (filter_model : CodeRepositoryFilter)
    (workspace_name_or_id : Option String := none) (hydrate : Bool := false) :
    HandlerResult (List CodeRepositoryResponse) :=
  if env.authorized then
    match scopeLookup env workspace_name_or_id with
    | (.error e, evs) => (.error e, evs)
    | (.ok wid, evs) =>
      let filter_model :=
        match wid with
        | some i => filter_model.set_scope_workspace i
        | none => filter_model
      let r := verify_permissions_and_list_entities
        (env.hasPermission .code_repository .list) .code_repository
        Ev.storeListRepos env.list_code_repositories filter_model hydrate
      (r.1, evs ++ r.2)
  else (.error .unauthorized, [])

/-- Embedding of `get_code_repository` (`code_repositories_endpoints.py`). -/
def get_code_repository (env : Env) (code_repository_id : Nat)
    (hydrate : Bool := true) : HandlerResult CodeRepositoryResponse :=
  if env.authorized then
    verify_permissions_and_get_entity
      (env.hasPermission .code_repository .read) .code_repository
      Ev.storeGetRepo env.get_code_repository code_repository_id hydrate
  else (.error .unauthorized, [])

/-- Embedding of `update_code_repository` (`code_repositories_endpoints.py`). -/
def update_code_repository (env : Env) (code_repository_id : Nat)
    (update : CodeRepositoryUpdate) : HandlerResult CodeRepositoryResponse :=
  if env.authorized then
    verify_permissions_and_update_entity
      (env.hasPermission .code_repository .update) .code_repository
      Ev.storeGetRepo Ev.storeUpdateRepo
      env.get_code_repository env.update_code_repository
      code_repository_id update
  else (.error .unauthorized, [])

/-- Embedding of `delete_code_repository` (`code_repositories_endpoints.py`). -/
def delete_code_repository (env : Env) (code_repository_id : Nat) :
    HandlerResult Unit :=
  if env.authorized then
    verify_permissions_and_delete_entity
      (env.hasPermission .code_repository .delete) .code_repository
      Ev.storeGetRepo Ev.storeDeleteRepo
      env.get_code_repository code_repository_id
  else (.error .unauthorized, [])

/-- Embedding of `create_deployment` (`pipeline_deployments_endpoints.py`):
if `workspace_name_or_id` is truthy, the workspace is resolved and the request
model's `workspace` field overwritten with its id; then the permission-checked
create dispatch runs. -/
def create_deployment (env : Env) (deployment : PipelineDeploymentRequest)
    (workspace_name_or_id : Option String := none) :
    HandlerResult PipelineDeploymentResponse :=
  if env.authorized then
    match scopeLookup env workspace_name_or_id with
    | (.error e, evs) => (.error e, evs)
    | (.ok wid, evs) =>
      let deployment :=
        match wid with
        | some i => { deployment with workspace := i }
        | none => deployment
      let r := verify_permissions_and_create_entity
        (env.hasPermission .pipeline_deployment .create) .pipeline_deployment
        Ev.storeCreateDeployment env.create_deployment deployment
      (r.1, evs ++ r.2)
  else (.error .unauthorized, [])

/-- Embedding of `list_deployments` (`pipeline_deployments_endpoints.py`):
if `workspace_name_or_id` is truthy, the workspace is resolved and
`set_scope_workspace` is called on the filter model with its id; then the
permission-checked list dispatch runs. -/
def list_deployments (env : Env) (deployment_filter_model : PipelineDeploymentFilter)
    (workspace_name_or_id : Option String := none) (hydrate : Bool := false) :
    HandlerResult (List PipelineDeploymentResponse) :=
  if env.authorized then
    match scopeLookup env workspace_name_or_id with
    | (.error e, evs) => (.error e, evs)
    | (.ok wid, evs) =>
      let deployment_filter_model :=
        match wid with
        | some i => deployment_filter_model.set_scope_workspace i
        | none => deployment_filter_model
      let r := verify_permissions_and_list_entities
        (env.hasPermission .pipeline_deployment .list) .pipeline_deployment
        Ev.storeListDeployments env.list_deployments deployment_filter_model hydrate
      (r.1, evs ++ r.2)
  else (.error .unauthorized, [])

/-- Embedding of `get_deployment` (`pipeline_deployments_endpoints.py`). -/
def get_deployment (env : Env) (deployment_id : Nat)
    (hydrate : Bool := true) : HandlerResult PipelineDeploymentResponse :=
  if env.authorized then
    verify_permissions_and_get_entity
      (env.hasPermission .pipeline_deployment .read) .pipeline_deployment
      Ev.storeGetDeployment env.get_deployment deployment_id hydrate
  else (.error .unauthorized, [])

/-- Embedding of `delete_deployment` (`pipeline_deployments_endpoints.py`). -/
def delete_deployment (env : Env) (deployment_id : Nat) :
    HandlerResult Unit :=
  if env.authorized then
    verify_permissions_and_delete_entity
      (env.hasPermission .pipeline_deployment .delete) .pipeline_deployment
      Ev.storeGetDeployment Ev.storeDeleteDeployment
      env.get_deployment deployment_id
  else (.error .unauthorized, [])

/-- Embedding of `deployment_logs` (`pipeline_deployments_endpoints.py`),
defined under `if server_config().workload_manager_enabled:`: performs the
permission-checked retrieval of the deployment (hydrate True) and returns
`workload_manager().get_logs(workload_id=deployment.id)`. -/
def deployment_logs (env : Env) (deployment_id : Nat) : HandlerResult String :=
  if env.authorized then
    match verify_permissions_and_get_entity
        (env.hasPermission .pipeline_deployment .read) .pipeline_deployment
        Ev.storeGetDeployment env.get_deployment deployment_id true with
    | (.ok deployment, evs) =>
      (.ok (env.workload_get_logs deployment.id),
        evs ++ [.workloadGetLogs deployment.id])
    | (.error e, evs) => (.error e, evs)
  else (.error .unauthorized, [])

/-- HTTP method of a registered route. -/
inductive Method where
  | get
  | post
  | put
  | delete
deriving DecidableEq, Repr

/-- A registered route, as declared by the `@router.*` decorators: the HTTP
method, the path relative to the router's mount point, and the default value
of the handler's `hydrate` query parameter (`none` when the handler has no
such parameter). -/
structure Route where
  method : Method
  path : String
  hydrateDefault : Option Bool
deriving DecidableEq, Repr

/-- The routes registered on the code-repositories router
(`code_repositories_endpoints.py`), in source order, with each handler's
`hydrate` default taken from its signature. -/
def code_repositories_routes : List Route :=
  [ ⟨.post, "", none⟩,
    ⟨.get, "", some false⟩,
    ⟨.get, "/{code_repository_id}", some true⟩,
    ⟨.put, "/{code_repository_id}", none⟩,
    ⟨.delete, "/{code_repository_id}", none⟩ ]

/-- The routes registered on the deployments router
(`pipeline_deployments_endpoints.py`), in source order: the four CRUD routes
are always registered, and the logs route only under
`if server_config().workload_manager_enabled:`. -/
def pipeline_deployments_routes (workload_manager_enabled : Bool) : List Route :=
  [ ⟨.post, "", none⟩,
    ⟨.get, "", some false⟩,
    ⟨.get, "/{deployment_id}", some true⟩,
    ⟨.delete, "/{deployment_id}", none⟩ ] ++
  (if workload_manager_enabled then [⟨.get, "/{deployment_id}/logs", none⟩] else [])

/-! Embedding of the migration
`41b28cae31ce_make_artifacts_workspace_scoped.py`.  The database is embedded
as the `artifact` table's schema (its column list and foreign-key constraint
list) together with its rows and the `workspace` table's rows.  Rows carry
`Option Nat` slots for the `workspace_id` and `user_id` columns; adding a
column initializes its slot to `none` (SQL NULL) in every existing row, and
dropping a column resets its slot to `none`. -/

/-- A column of the `artifact` table: its name and nullability. -/
structure Column where
  name : String
  nullable : Bool
deriving DecidableEq, Repr

/-- A foreign-key constraint on the `artifact` table, as created by
`batch_op.create_foreign_key`. -/
structure ForeignKey where
  name : String
  referred_table : String
  local_cols : List String
  remote_cols : List String
  ondelete : String
deriving DecidableEq, Repr

/-- A row of the `artifact` table; the slots for the migration's two new
columns are `none` while the column does not exist or holds SQL NULL. -/
structure ArtifactRow where
  id : Nat
  workspace_id : Option Nat
  user_id : Option Nat
deriving DecidableEq, Repr

/-- A row of the `workspace` table. -/
structure WorkspaceRow where
  id : Nat
  name : String
deriving DecidableEq, Repr

/-- The database state the migration operates on. -/
structure DB where
  artifact_columns : List Column
  artifact_fks : List ForeignKey
  artifacts : List ArtifactRow
  workspaces : List WorkspaceRow
deriving DecidableEq, Repr

/-- Modelled from the spec: `DEFAULT_WORKSPACE_NAME` (from `zenml.constants`,
not in src) — the fallback default workspace name used when the environment
variable `ZENML_DEFAULT_WORKSPACE_NAME` (`ENV_ZENML_DEFAULT_WORKSPACE_NAME`)
is not set. -/
def DEFAULT_WORKSPACE_NAME : String := "default"

/-- Embedding of `os.getenv(ENV_ZENML_DEFAULT_WORKSPACE_NAME,
DEFAULT_WORKSPACE_NAME)` in `upgrade`: the environment variable's value when
it is set, `DEFAULT_WORKSPACE_NAME` otherwise. -/
def default_workspace_name (env_var : Option String) : String :=
  env_var.getD DEFAULT_WORKSPACE_NAME

/-- Embedding of the query `SELECT id FROM workspace WHERE name =
:default_workspace_name LIMIT 1` followed by `.scalar()`: the id of the first
workspace row with the given name, if any. -/
def default_workspace_id (db : DB) (n : String) : Option Nat :=
  ((db.workspaces.filter (fun w => w.name = n)).head?).map (fun w => w.id)

/-- Embedding of the first `batch_alter_table` block of `upgrade`: adds the
`workspace_id` and `user_id` columns as nullable; every existing row holds
SQL NULL in the new columns. -/
def addArtifactColumns (db : DB) : DB :=
  { db with
    artifact_columns := db.artifact_columns ++
      [⟨"workspace_id", true⟩, ⟨"user_id", true⟩],
    artifacts := db.artifacts.map
      (fun a => { a with workspace_id := none, user_id := none }) }

/-- The foreign key created by `upgrade` from `artifact.workspace_id` to
`workspace.id` with `ondelete="CASCADE"`. -/
def fk_artifact_workspace_id_workspace : ForeignKey :=
  ⟨"fk_artifact_workspace_id_workspace", "workspace",
    ["workspace_id"], ["id"], "CASCADE"⟩

/-- The foreign key created by `upgrade` from `artifact.user_id` to `user.id`
with `ondelete="SET NULL"`. -/
def fk_artifact_user_id_user : ForeignKey :=
  ⟨"fk_artifact_user_id_user", "user", ["user_id"], ["id"], "SET NULL"⟩

/-- Embedding of the second `batch_alter_table` block of `upgrade`: makes
`workspace_id` non-nullable and adds the two foreign-key constraints. -/
def tightenArtifactSchema (db : DB) : DB :=
  { db with
    artifact_columns := db.artifact_columns.map
      (fun c => if c.name = "workspace_id" then { c with nullable := false } else c),
    artifact_fks := db.artifact_fks ++
      [fk_artifact_workspace_id_workspace, fk_artifact_user_id_user] }

/-- Embedding of `upgrade` in
`41b28cae31ce_make_artifacts_workspace_scoped.py`, run against a database
state with the environment variable `ZENML_DEFAULT_WORKSPACE_NAME` embedded
as `env_var : Option String`.  Returns the database state at the point the
function returns or raises, together with the raised exception's message if
any: the two columns are added as nullable; the default workspace is looked
up; if it is missing an exception is raised there; otherwise every artifact
row is updated to the default workspace id, `workspace_id` is made
non-nullable and the two foreign keys are created. -/
def upgrade (env_var : Option String) (db : DB) : DB × Option String :=
  let db1 := addArtifactColumns db
  match default_workspace_id db1 (default_workspace_name env_var) with
  | none =>
    (db1, some "Default workspace not found. Cannot proceed with migration.")
  | some wid =>
    let db2 := { db1 with
      artifacts := db1.artifacts.map (fun a => { a with workspace_id := some wid }) }
    (tightenArtifactSchema db2, none)

/-- Embedding of `downgrade` in
`41b28cae31ce_make_artifacts_workspace_scoped.py`: drops the constraints
`fk_artifact_user_id_user` and `fk_artifact_workspace_id_workspace`, then
drops the `user_id` and `workspace_id` columns (their row slots revert to
`none`). -/
def downgrade (db : DB) : DB :=
  { db with
    artifact_fks := db.artifact_fks.filter
      (fun fk => fk.name ≠ "fk_artifact_user_id_user" ∧
        fk.name ≠ "fk_artifact_workspace_id_workspace"),
    artifact_columns := db.artifact_columns.filter
      (fun c => c.name ≠ "user_id" ∧ c.name ≠ "workspace_id"),
    artifacts := db.artifacts.map
      (fun a => { a with workspace_id := none, user_id := none }) }

/-! Helper lemmas shared by the migration theorems. -/

lemma list_map_eq_self {α : Type} (l : List α) (f : α → α)
    (h : ∀ a ∈ l, f a = a) : l.map f = l := by
  induction l with
  | nil => rfl
  | cons x xs ih =>
    simp only [List.map_cons, h x (by simp)]
    rw [ih (fun a ha => h a (by simp [ha]))]

/-- Unfolding of a successful run of `upgrade`: the exact database state it
produces, in terms of the input state and the backfill workspace id. -/
lemma upgrade_ok (env_var : Option String) (db db' : DB)
    (h : upgrade env_var db = (db', none)) :
    ∃ wid, default_workspace_id db (default_workspace_name env_var) = some wid ∧
      db'.artifact_columns =
        (db.artifact_columns ++
            ([⟨"workspace_id", true⟩, ⟨"user_id", true⟩] : List Column)).map
          (fun c => if c.name = "workspace_id" then { c with nullable := false } else c) ∧
      db'.artifact_fks = db.artifact_fks ++
        [fk_artifact_workspace_id_workspace, fk_artifact_user_id_user] ∧
      db'.artifacts = db.artifacts.map
        (fun a => { a with workspace_id := some wid, user_id := none }) ∧
      db'.workspaces = db.workspaces := by
  simp only [upgrade] at h
  cases hd : default_workspace_id (addArtifactColumns db) (default_workspace_name env_var) with
  | none =>
    rw [hd] at h
    exact absurd (congrArg Prod.snd h) (by simp)
  | some wid =>
    rw [hd] at h
    have h1 : tightenArtifactSchema
        { addArtifactColumns db with
          artifacts := (addArtifactColumns db).artifacts.map
            (fun a => { a with workspace_id := some wid }) } = db' :=
      congrArg Prod.fst h
    refine ⟨wid, hd, ?_⟩
    rw [← h1]
    refine ⟨rfl, rfl, ?_, rfl⟩
    show ((db.artifacts.map _).map _) = _
    rw [List.map_map]
    rfl

/-- Unfolding of an aborted run of `upgrade`: the exception message and the
exact database state at the point the exception is raised. -/
lemma upgrade_err (env_var : Option String) (db db' : DB) (msg : String)
    (h : upgrade env_var db = (db', some msg)) :
    default_workspace_id db (default_workspace_name env_var) = none ∧
    msg = "Default workspace not found. Cannot proceed with migration." ∧
    db' = addArtifactColumns db := by
  simp only [upgrade] at h
  cases hd : default_workspace_id (addArtifactColumns db) (default_workspace_name env_var) with
  | none =>
    rw [hd] at h
    have h1 := congrArg Prod.fst h
    have h2 := congrArg Prod.snd h
    simp at h1 h2
    exact ⟨hd, h2.symm, h1.symm⟩
  | some wid =>
    rw [hd] at h
    exact absurd (congrArg Prod.snd h) (by simp)

lemma artifactRow_clear_eq_self (a : ArtifactRow)
    (h1 : a.workspace_id = none) (h2 : a.user_id = none) :
    { a with workspace_id := none, user_id := none } = a := by
  cases a
  simp_all

/-- C2: after a successful `upgrade`, every artifact row references exactly one
workspace (`workspace_id` non-nullable, foreign key to `workspace` with
ondelete CASCADE) and optionally one user (`user_id` nullable, foreign key to
`user` with ondelete SET NULL), and every artifact row existing before the
upgrade has been backfilled with the default workspace's id. -/
theorem upgrade_makes_artifacts_workspace_scoped
    (env_var : Option String) (db db' : DB)
    (hcols : ∀ c ∈ db.artifact_columns, c.name ≠ "workspace_id" ∧ c.name ≠ "user_id")
    (h : upgrade env_var db = (db', none)) :
    db'.artifact_columns = db.artifact_columns ++
      ([⟨"workspace_id", false⟩, ⟨"user_id", true⟩] : List Column) ∧
    db'.artifact_fks = db.artifact_fks ++
      [fk_artifact_workspace_id_workspace, fk_artifact_user_id_user] ∧
    fk_artifact_workspace_id_workspace.referred_table = "workspace" ∧
    fk_artifact_workspace_id_workspace.ondelete = "CASCADE" ∧
    fk_artifact_user_id_user.referred_table = "user" ∧
    fk_artifact_user_id_user.ondelete = "SET NULL" ∧
    ∃ wid, default_workspace_id db (default_workspace_name env_var) = some wid ∧
      db'.artifacts = db.artifacts.map
        (fun a => { a with workspace_id := some wid, user_id := none }) ∧
      ∀ a ∈ db'.artifacts, a.workspace_id = some wid := by
  obtain ⟨wid, hwid, hc, hf, ha, -⟩ := upgrade_ok env_var db db' h
  refine ⟨?_, hf, rfl, rfl, rfl, rfl, wid, hwid, ha, ?_⟩
  · rw [hc, List.map_append,
      list_map_eq_self _ _ (fun c hc' => by simp [(hcols c hc').1])]
    exact congrArg (db.artifact_columns ++ ·) (by decide)
  · intro a ha'
    rw [ha] at ha'
    obtain ⟨b, -, rfl⟩ := List.mem_map.mp ha'
    rfl

/-- Concrete pre-migration database state used by the migration witnesses. -/
def dbPre : DB :=
  ⟨[⟨"id", false⟩, ⟨"name", true⟩], [],
   [⟨1, none, none⟩, ⟨2, none, none⟩],
   [⟨7, "default"⟩, ⟨9, "custom"⟩]⟩

/-- The database state produced by `upgrade none dbPre`. -/
def dbUp : DB :=
  ⟨[⟨"id", false⟩, ⟨"name", true⟩, ⟨"workspace_id", false⟩, ⟨"user_id", true⟩],
   [fk_artifact_workspace_id_workspace, fk_artifact_user_id_user],
   [⟨1, some 7, none⟩, ⟨2, some 7, none⟩],
   [⟨7, "default"⟩, ⟨9, "custom"⟩]⟩

/-- Witness for C2 at a concrete database with two artifact rows and a
`default` workspace of id 7. -/
theorem upgrade_makes_artifacts_workspace_scoped_witness :
    (∀ c ∈ dbPre.artifact_columns, c.name ≠ "workspace_id" ∧ c.name ≠ "user_id") ∧
    upgrade none dbPre = (dbUp, none) ∧
    (dbUp.artifact_columns = dbPre.artifact_columns ++
      ([⟨"workspace_id", false⟩, ⟨"user_id", true⟩] : List Column) ∧
    dbUp.artifact_fks = dbPre.artifact_fks ++
      [fk_artifact_workspace_id_workspace, fk_artifact_user_id_user] ∧
    fk_artifact_workspace_id_workspace.referred_table = "workspace" ∧
    fk_artifact_workspace_id_workspace.ondelete = "CASCADE" ∧
    fk_artifact_user_id_user.referred_table = "user" ∧
    fk_artifact_user_id_user.ondelete = "SET NULL" ∧
    ∃ wid, default_workspace_id dbPre (default_workspace_name none) = some wid ∧
      dbUp.artifacts = dbPre.artifacts.map
        (fun a => { a with workspace_id := some wid, user_id := none }) ∧
      ∀ a ∈ dbUp.artifacts, a.workspace_id = some wid) :=
  ⟨by decide, by decide,
    upgrade_makes_artifacts_workspace_scoped none dbPre dbUp (by decide) (by decide)⟩

/-- Database state with an artifact row but no workspace rows at all, so no
row with the default workspace name exists. -/
def dbNoWorkspace : DB :=
  ⟨[⟨"id", false⟩], [], [⟨1, none, none⟩], []⟩

/-- C3 counterexample: run against a database with no default workspace, the
upgrade raises, but the database state at the raise is not the pre-upgrade
state — the two nullable columns added by the first `batch_alter_table` block
remain added, contradicting the claim that the aborted upgrade leaves the
database state unchanged. -/
theorem upgrade_abort_not_unchanged :
    (upgrade none dbNoWorkspace).2.isSome = true ∧
    (upgrade none dbNoWorkspace).1 ≠ dbNoWorkspace := by decide

/-- C3 amended: if no workspace row with the default workspace name exists,
`upgrade` raises `Default workspace not found. Cannot proceed with migration.`
and aborts before the backfill: no artifact row is backfilled, `workspace_id`
is not made non-nullable, and no foreign key constraint is added — but the
two nullable columns `workspace_id` and `user_id`, added by the first
`batch_alter_table` block before the default-workspace check, remain added at
the point the exception propagates. -/
theorem upgrade_abort_effects (env_var : Option String) (db db' : DB) (msg : String)
    (h : upgrade env_var db = (db', some msg)) :
    default_workspace_id db (default_workspace_name env_var) = none ∧
    msg = "Default workspace not found. Cannot proceed with migration." ∧
    (∀ a ∈ db'.artifacts, a.workspace_id = none) ∧
    db'.artifact_fks = db.artifact_fks ∧
    db'.artifact_columns = db.artifact_columns ++
      ([⟨"workspace_id", true⟩, ⟨"user_id", true⟩] : List Column) ∧
    db'.workspaces = db.workspaces := by
  obtain ⟨hn, hm, rfl⟩ := upgrade_err env_var db db' msg h
  refine ⟨hn, hm, ?_, rfl, rfl, rfl⟩
  intro a ha
  have ha' : a ∈ db.artifacts.map
      (fun a => { a with workspace_id := none, user_id := none }) := ha
  obtain ⟨b, -, rfl⟩ := List.mem_map.mp ha'
  rfl

/-- The database state at the point `upgrade none dbNoWorkspace` raises. -/
def dbNoWorkspaceAborted : DB :=
  ⟨[⟨"id", false⟩, ⟨"workspace_id", true⟩, ⟨"user_id", true⟩], [],
   [⟨1, none, none⟩], []⟩

/-- Witness for the amended C3 at the concrete database without a default
workspace. -/
theorem upgrade_abort_effects_witness :
    upgrade none dbNoWorkspace =
      (dbNoWorkspaceAborted,
        some "Default workspace not found. Cannot proceed with migration.") ∧
    (default_workspace_id dbNoWorkspace (default_workspace_name none) = none ∧
    "Default workspace not found. Cannot proceed with migration." =
      "Default workspace not found. Cannot proceed with migration." ∧
    (∀ a ∈ dbNoWorkspaceAborted.artifacts, a.workspace_id = none) ∧
    dbNoWorkspaceAborted.artifact_fks = dbNoWorkspace.artifact_fks ∧
    dbNoWorkspaceAborted.artifact_columns = dbNoWorkspace.artifact_columns ++
      ([⟨"workspace_id", true⟩, ⟨"user_id", true⟩] : List Column) ∧
    dbNoWorkspaceAborted.workspaces = dbNoWorkspace.workspaces) :=
  ⟨by decide,
    upgrade_abort_effects none dbNoWorkspace dbNoWorkspaceAborted
      "Default workspace not found. Cannot proceed with migration." (by decide)⟩

/-- C5: the backfill workspace name is taken from the environment — the value
of `ZENML_DEFAULT_WORKSPACE_NAME` when set, `DEFAULT_WORKSPACE_NAME`
otherwise — and the backfill workspace id is the id of the first workspace
row with that name. -/
theorem upgrade_default_workspace_selection :
    (∀ v, default_workspace_name (some v) = v) ∧
    default_workspace_name none = DEFAULT_WORKSPACE_NAME ∧
    (∀ env_var db db', upgrade env_var db = (db', none) →
      ∃ w, (db.workspaces.filter
          (fun r => r.name = default_workspace_name env_var)).head? = some w ∧
        ∀ a ∈ db'.artifacts, a.workspace_id = some w.id) := by
  refine ⟨fun v => rfl, rfl, fun env_var db db' h => ?_⟩
  obtain ⟨wid, hwid, -, -, ha, -⟩ := upgrade_ok env_var db db' h
  simp only [default_workspace_id] at hwid
  obtain ⟨w, hw, hwid'⟩ := Option.map_eq_some'.mp hwid
  refine ⟨w, hw, fun a ha' => ?_⟩
  rw [ha] at ha'
  obtain ⟨b, -, rfl⟩ := List.mem_map.mp ha'
  simp [hwid']

/-- The database state produced by `upgrade (some "custom") dbPre`: the
environment variable overrides the fallback name, so the backfill uses the
`custom` workspace of id 9. -/
def dbUpCustom : DB :=
  ⟨[⟨"id", false⟩, ⟨"name", true⟩, ⟨"workspace_id", false⟩, ⟨"user_id", true⟩],
   [fk_artifact_workspace_id_workspace, fk_artifact_user_id_user],
   [⟨1, some 9, none⟩, ⟨2, some 9, none⟩],
   [⟨7, "default"⟩, ⟨9, "custom"⟩]⟩

/-- Witness for C5: with the environment variable set to `custom`, the
backfill id is that of the first workspace row named `custom`. -/
theorem upgrade_default_workspace_selection_witness :
    upgrade (some "custom") dbPre = (dbUpCustom, none) ∧
    ∃ w, (dbPre.workspaces.filter
        (fun r => r.name = default_workspace_name (some "custom"))).head? = some w ∧
      ∀ a ∈ dbUpCustom.artifacts, a.workspace_id = some w.id :=
  ⟨by decide,
    upgrade_default_workspace_selection.2.2 (some "custom") dbPre dbUpCustom (by decide)⟩

/-- C7: `downgrade` inverts `upgrade` on the schema — it drops exactly the two
foreign keys and the two columns that `upgrade` added, so after a successful
upgrade of a database whose artifact table had neither the columns nor the
constraints, the downgraded schema equals the original; when additionally the
rows carried no values in the dropped column slots, the whole database state
is restored. -/
theorem downgrade_inverts_upgrade (env_var : Option String) (db db' : DB)
    (hcols : ∀ c ∈ db.artifact_columns, c.name ≠ "workspace_id" ∧ c.name ≠ "user_id")
    (hfks : ∀ fk ∈ db.artifact_fks, fk.name ≠ "fk_artifact_user_id_user" ∧
      fk.name ≠ "fk_artifact_workspace_id_workspace")
    (h : upgrade env_var db = (db', none)) :
    (downgrade db').artifact_columns = db.artifact_columns ∧
    (downgrade db').artifact_fks = db.artifact_fks ∧
    (downgrade db').workspaces = db.workspaces ∧
    ((∀ a ∈ db.artifacts, a.workspace_id = none ∧ a.user_id = none) →
      downgrade db' = db) := by
  obtain ⟨wid, -, hc, hf, ha, hw⟩ := upgrade_ok env_var db db' h
  have hcol : (downgrade db').artifact_columns = db.artifact_columns := by
    show db'.artifact_columns.filter _ = _
    rw [hc, List.map_append,
      list_map_eq_self _ _ (fun c hc' => by simp [(hcols c hc').1]),
      List.filter_append,
      List.filter_eq_self.mpr (fun c hc' => by
        have := hcols c hc'
        simp [this.1, this.2]),
      show (([⟨"workspace_id", true⟩, ⟨"user_id", true⟩] : List Column).map
          (fun c => if c.name = "workspace_id" then { c with nullable := false } else c)).filter
          (fun c => c.name ≠ "user_id" ∧ c.name ≠ "workspace_id") = [] from by decide,
      List.append_nil]
  have hfk : (downgrade db').artifact_fks = db.artifact_fks := by
    show db'.artifact_fks.filter _ = _
    rw [hf, List.filter_append,
      List.filter_eq_self.mpr (fun fk hfk' => by
        have := hfks fk hfk'
        simp [this.1, this.2]),
      show ([fk_artifact_workspace_id_workspace, fk_artifact_user_id_user].filter
          (fun fk => fk.name ≠ "fk_artifact_user_id_user" ∧
            fk.name ≠ "fk_artifact_workspace_id_workspace")) = [] from by decide,
      List.append_nil]
  have hws : (downgrade db').workspaces = db.workspaces := hw
  refine ⟨hcol, hfk, hws, fun hrows => ?_⟩
  have hart : (downgrade db').artifacts = db.artifacts := by
    show db'.artifacts.map _ = _
    rw [ha, List.map_map]
    exact list_map_eq_self _ _ (fun a ha' =>
      artifactRow_clear_eq_self a (hrows a ha').1 (hrows a ha').2)
  calc downgrade db'
      = DB.mk (downgrade db').artifact_columns (downgrade db').artifact_fks
          (downgrade db').artifacts (downgrade db').workspaces := rfl
    _ = DB.mk db.artifact_columns db.artifact_fks db.artifacts db.workspaces := by
        rw [hcol, hfk, hart, hws]
    _ = db := rfl

/-- Witness for C7 at the concrete database `dbPre`. -/
theorem downgrade_inverts_upgrade_witness :
    (∀ c ∈ dbPre.artifact_columns, c.name ≠ "workspace_id" ∧ c.name ≠ "user_id") ∧
    (∀ fk ∈ dbPre.artifact_fks, fk.name ≠ "fk_artifact_user_id_user" ∧
      fk.name ≠ "fk_artifact_workspace_id_workspace") ∧
    upgrade none dbPre = (dbUp, none) ∧
    ((downgrade dbUp).artifact_columns = dbPre.artifact_columns ∧
    (downgrade dbUp).artifact_fks = dbPre.artifact_fks ∧
    (downgrade dbUp).workspaces = dbPre.workspaces ∧
    ((∀ a ∈ dbPre.artifacts, a.workspace_id = none ∧ a.user_id = none) →
      downgrade dbUp = dbPre)) :=
  ⟨by decide, by decide, by decide,
    downgrade_inverts_upgrade none dbPre dbUp (by decide) (by decide) (by decide)⟩

/-- C1: workspace scoping rewrites the incoming model from the URL-supplied
workspace identifier — with a non-empty `workspace_name_or_id`, each create
handler resolves the workspace via `zen_store().get_workspace` and overwrites
the request model's `workspace` field with the resolved id before delegating,
and each list handler calls `set_scope_workspace` with the resolved id on the
filter model before delegating. -/
theorem workspace_scoping_rewrites_models
    (env : Env) (s : String) (w : WorkspaceResponse)
    (req : CodeRepositoryRequest) (dreq : PipelineDeploymentRequest)
    (f : CodeRepositoryFilter) (df : PipelineDeploymentFilter) (hydrate : Bool)
    (hauth : env.authorized = true)
    (hs : s.isEmpty = false)
    (hw : env.get_workspace s = some w) :
    (env.hasPermission .code_repository .create = true →
      create_code_repository env req (some s) =
        (.ok (env.create_code_repository { req with workspace := w.id }),
          [.getWorkspace s, .permissionCheck .code_repository .create,
            .storeCreateRepo { req with workspace := w.id }])) ∧
    (env.hasPermission .pipeline_deployment .create = true →
      create_deployment env dreq (some s) =
        (.ok (env.create_deployment { dreq with workspace := w.id }),
          [.getWorkspace s, .permissionCheck .pipeline_deployment .create,
            .storeCreateDeployment { dreq with workspace := w.id }])) ∧
    (env.hasPermission .code_repository .list = true →
      list_code_repositories env f (some s) hydrate =
        (.ok (env.list_code_repositories (f.set_scope_workspace w.id) hydrate),
          [.getWorkspace s, .permissionCheck .code_repository .list,
            .storeListRepos (f.set_scope_workspace w.id) hydrate])) ∧
    (env.hasPermission .pipeline_deployment .list = true →
      list_deployments env df (some s) hydrate =
        (.ok (env.list_deployments (df.set_scope_workspace w.id) hydrate),
          [.getWorkspace s, .permissionCheck .pipeline_deployment .list,
            .storeListDeployments (df.set_scope_workspace w.id) hydrate])) := by
  refine ⟨fun hp => ?_, fun hp => ?_, fun hp => ?_, fun hp => ?_⟩
  · simp [create_code_repository, scopeLookup, verify_permissions_and_create_entity,
      hauth, hs, hw, hp]
  · simp [create_deployment, scopeLookup, verify_permissions_and_create_entity,
      hauth, hs, hw, hp]
  · simp [list_code_repositories, scopeLookup, verify_permissions_and_list_entities,
      hauth, hs, hw, hp]
  · simp [list_deployments, scopeLookup, verify_permissions_and_list_entities,
      hauth, hs, hw, hp]

/-- Helper for `rbacBeforeStore`: `seen` records whether a permission check
has already occurred; a store invocation is only allowed once `seen` holds. -/
def rbacBeforeStoreAux : Bool → List Ev → Bool
  | _, [] => true
  | seen, e :: rest =>
    if e.isStoreCall then seen && rbacBeforeStoreAux seen rest
    else rbacBeforeStoreAux (seen || e.isPermissionCheck) rest

/-- Whether, in an event trace, every store CRUD invocation is preceded by an
earlier RBAC permission verification. -/
def rbacBeforeStore (evs : List Ev) : Bool := rbacBeforeStoreAux false evs

/-- Whether a trace contains no store CRUD invocation. -/
def storeFree (evs : List Ev) : Bool := evs.all (fun e => !e.isStoreCall)

/-- The C4 per-endpoint guard: permission checks precede store invocations,
and if any store CRUD method was invoked at all then the request was
authorized and the relevant permission granted. -/
def rbacGuard (authorized granted : Bool) (evs : List Ev) : Bool :=
  rbacBeforeStore evs && (storeFree evs || (authorized && granted))

lemma rbacBeforeStoreAux_true (t : List Ev) : rbacBeforeStoreAux true t = true := by
  induction t with
  | nil => rfl
  | cons e rest ih =>
    by_cases he : e.isStoreCall = true <;> simp [rbacBeforeStoreAux, he, ih]

lemma rbacGuard_nil (a g : Bool) : rbacGuard a g [] = true := by
  simp [rbacGuard, rbacBeforeStore, rbacBeforeStoreAux, storeFree]

lemma rbacGuard_scope_evs (a g : Bool) (evs : List Ev)
    (h : evs = [] ∨ ∃ s, evs = [Ev.getWorkspace s]) : rbacGuard a g evs = true := by
  rcases h with rfl | ⟨s, rfl⟩
  · exact rbacGuard_nil a g
  · simp [rbacGuard, rbacBeforeStore, rbacBeforeStoreAux, storeFree, Ev.isStoreCall]

lemma rbacGuard_check (a g : Bool) (rt : ResourceType) (act : Action) :
    rbacGuard a g [Ev.permissionCheck rt act] = true := by
  simp [rbacGuard, rbacBeforeStore, rbacBeforeStoreAux, storeFree, Ev.isStoreCall]

lemma rbacGuard_check_cons (rt : ResourceType) (act : Action) (t : List Ev) :
    rbacGuard true true (Ev.permissionCheck rt act :: t) = true := by
  simp [rbacGuard, rbacBeforeStore, rbacBeforeStoreAux, Ev.isStoreCall,
    Ev.isPermissionCheck, rbacBeforeStoreAux_true]

lemma rbacGuard_getWorkspace_cons (a g : Bool) (s : String) (t : List Ev)
    (h : rbacGuard a g t = true) : rbacGuard a g (Ev.getWorkspace s :: t) = true := h

lemma scopeLookup_trace (env : Env) (w : Option String) :
    (scopeLookup env w).2 = [] ∨ ∃ s, (scopeLookup env w).2 = [Ev.getWorkspace s] := by
  cases w with
  | none => exact Or.inl rfl
  | some s =>
    simp only [scopeLookup]
    cases hse : s.isEmpty
    · cases hgw : env.get_workspace s
      · simp
      · simp
    · simp

lemma scopeLookup_trace' (env : Env) (w : Option String)
    (res : Except HandlerErr (Option Nat)) (evs : List Ev)
    (h : scopeLookup env w = (res, evs)) :
    evs = [] ∨ ∃ s, evs = [Ev.getWorkspace s] := by
  have h2 := scopeLookup_trace env w
  rw [h] at h2
  simpa using h2

/-- C4: in every CRUD endpoint of both routers, the RBAC permission
verification happens before any underlying store CRUD method is invoked, and
no store CRUD method is invoked unless the request was authorized and the
permission granted. -/
theorem endpoints_verify_permissions_before_store (env : Env)
    (req : CodeRepositoryRequest) (dreq : PipelineDeploymentRequest)
    (f : CodeRepositoryFilter) (df : PipelineDeploymentFilter)
    (w : Option String) (hydrate : Bool) (id : Nat) (upd : CodeRepositoryUpdate) :
    rbacGuard env.authorized (env.hasPermission .code_repository .create)
      (create_code_repository env req w).2 = true ∧
    rbacGuard env.authorized (env.hasPermission .code_repository .list)
      (list_code_repositories env f w hydrate).2 = true ∧
    rbacGuard env.authorized (env.hasPermission .code_repository .read)
      (get_code_repository env id hydrate).2 = true ∧
    rbacGuard env.authorized (env.hasPermission .code_repository .update)
      (update_code_repository env id upd).2 = true ∧
    rbacGuard env.authorized (env.hasPermission .code_repository .delete)
      (delete_code_repository env id).2 = true ∧
    rbacGuard env.authorized (env.hasPermission .pipeline_deployment .create)
      (create_deployment env dreq w).2 = true ∧
    rbacGuard env.authorized (env.hasPermission .pipeline_deployment .list)
      (list_deployments env df w hydrate).2 = true ∧
    rbacGuard env.authorized (env.hasPermission .pipeline_deployment .read)
      (get_deployment env id hydrate).2 = true ∧
    rbacGuard env.authorized (env.hasPermission .pipeline_deployment .delete)
      (delete_deployment env id).2 = true := by
  refine ⟨?_, ?_, ?_, ?_, ?_, ?_, ?_, ?_, ?_⟩
  · cases hauth : env.authorized
    · simp [create_code_repository, hauth, rbacGuard, rbacBeforeStore,
        rbacBeforeStoreAux, storeFree]
    · simp only [create_code_repository, hauth, if_true]
      cases hsl : scopeLookup env w with
      | mk res evs =>
        have hevs := scopeLookup_trace' env w res evs hsl
        rcases res with e | wid <;> rcases hevs with rfl | ⟨s, rfl⟩ <;>
          cases hp : env.hasPermission .code_repository .create <;>
          simp [verify_permissions_and_create_entity, hp, rbacGuard, rbacBeforeStore,
            rbacBeforeStoreAux, storeFree, Ev.isStoreCall, Ev.isPermissionCheck]
  · cases hauth : env.authorized
    · simp [list_code_repositories, hauth, rbacGuard, rbacBeforeStore,
        rbacBeforeStoreAux, storeFree]
    · simp only [list_code_repositories, hauth, if_true]
      cases hsl : scopeLookup env w with
      | mk res evs =>
        have hevs := scopeLookup_trace' env w res evs hsl
        rcases res with e | wid <;> rcases hevs with rfl | ⟨s, rfl⟩ <;>
          cases hp : env.hasPermission .code_repository .list <;>
          simp [verify_permissions_and_list_entities, hp, rbacGuard, rbacBeforeStore,
            rbacBeforeStoreAux, storeFree, Ev.isStoreCall, Ev.isPermissionCheck]
  · cases hauth : env.authorized
    · simp [get_code_repository, hauth, rbacGuard, rbacBeforeStore,
        rbacBeforeStoreAux, storeFree]
    · cases hp : env.hasPermission .code_repository .read <;>
        cases hg : env.get_code_repository id hydrate <;>
        simp [get_code_repository, hauth, verify_permissions_and_get_entity, hp, hg,
          rbacGuard, rbacBeforeStore, rbacBeforeStoreAux, storeFree, Ev.isStoreCall,
          Ev.isPermissionCheck]
  · cases hauth : env.authorized
    · simp [update_code_repository, hauth, rbacGuard, rbacBeforeStore,
        rbacBeforeStoreAux, storeFree]
    · cases hp : env.hasPermission .code_repository .update <;>
        cases hg : env.get_code_repository id true <;>
        simp [update_code_repository, hauth, verify_permissions_and_update_entity, hp, hg,
          rbacGuard, rbacBeforeStore, rbacBeforeStoreAux, storeFree, Ev.isStoreCall,
          Ev.isPermissionCheck]
  · cases hauth : env.authorized
    · simp [delete_code_repository, hauth, rbacGuard, rbacBeforeStore,
        rbacBeforeStoreAux, storeFree]
    · cases hp : env.hasPermission .code_repository .delete <;>
        cases hg : env.get_code_repository id true <;>
        simp [delete_code_repository, hauth, verify_permissions_and_delete_entity, hp, hg,
          rbacGuard, rbacBeforeStore, rbacBeforeStoreAux, storeFree, Ev.isStoreCall,
          Ev.isPermissionCheck]
  · cases hauth : env.authorized
    · simp [create_deployment, hauth, rbacGuard, rbacBeforeStore,
        rbacBeforeStoreAux, storeFree]
    · simp only [create_deployment, hauth, if_true]
      cases hsl : scopeLookup env w with
      | mk res evs =>
        have hevs := scopeLookup_trace' env w res evs hsl
        rcases res with e | wid <;> rcases hevs with rfl | ⟨s, rfl⟩ <;>
          cases hp : env.hasPermission .pipeline_deployment .create <;>
          simp [verify_permissions_and_create_entity, hp, rbacGuard, rbacBeforeStore,
            rbacBeforeStoreAux, storeFree, Ev.isStoreCall, Ev.isPermissionCheck]
  · cases hauth : env.authorized
    · simp [list_deployments, hauth, rbacGuard, rbacBeforeStore,
        rbacBeforeStoreAux, storeFree]
    · simp only [list_deployments, hauth, if_true]
      cases hsl : scopeLookup env w with
      | mk res evs =>
        have hevs := scopeLookup_trace' env w res evs hsl
        rcases res with e | wid <;> rcases hevs with rfl | ⟨s, rfl⟩ <;>
          cases hp : env.hasPermission .pipeline_deployment .list <;>
          simp [verify_permissions_and_list_entities, hp, rbacGuard, rbacBeforeStore,
            rbacBeforeStoreAux, storeFree, Ev.isStoreCall, Ev.isPermissionCheck]
  · cases hauth : env.authorized
    · simp [get_deployment, hauth, rbacGuard, rbacBeforeStore,
        rbacBeforeStoreAux, storeFree]
    · cases hp : env.hasPermission .pipeline_deployment .read <;>
        cases hg : env.get_deployment id hydrate <;>
        simp [get_deployment, hauth, verify_permissions_and_get_entity, hp, hg,
          rbacGuard, rbacBeforeStore, rbacBeforeStoreAux, storeFree, Ev.isStoreCall,
          Ev.isPermissionCheck]
  · cases hauth : env.authorized
    · simp [delete_deployment, hauth, rbacGuard, rbacBeforeStore,
        rbacBeforeStoreAux, storeFree]
    · cases hp : env.hasPermission .pipeline_deployment .delete <;>
        cases hg : env.get_deployment id true <;>
        simp [delete_deployment, hauth, verify_permissions_and_delete_entity, hp, hg,
          rbacGuard, rbacBeforeStore, rbacBeforeStoreAux, storeFree, Ev.isStoreCall,
          Ev.isPermissionCheck]

/-- Concrete environment used by the endpoint witnesses: authorization
succeeds, every permission is granted, workspace `ws` resolves to id 7, and
the store methods are simple concrete functions. -/
def envW : Env where
  authorized := true
  hasPermission := fun _ _ => true
  get_workspace := fun s => if s = "ws" then some ⟨7, "ws"⟩ else none
  create_code_repository := fun r => ⟨r.workspace⟩
  list_code_repositories := fun _ _ => []
  get_code_repository := fun i _ => some ⟨i⟩
  update_code_repository := fun i _ => ⟨i⟩
  create_deployment := fun r => ⟨r.workspace⟩
  list_deployments := fun _ _ => []
  get_deployment := fun i _ => some ⟨i⟩
  workload_get_logs := fun _ => "logs"
  workload_manager_enabled := true

/-- Witness for C1 at the concrete environment `envW`: the URL-supplied
workspace `ws` (id 7) overwrites the request models and scopes the filter
models before delegation. -/
theorem workspace_scoping_rewrites_models_witness :
    envW.authorized = true ∧ "ws".isEmpty = false ∧
    envW.get_workspace "ws" = some ⟨7, "ws"⟩ ∧
    ((envW.hasPermission .code_repository .create = true →
      create_code_repository envW ⟨0, "repo"⟩ (some "ws") =
        (.ok ⟨7⟩, [.getWorkspace "ws", .permissionCheck .code_repository .create,
          .storeCreateRepo ⟨7, "repo"⟩])) ∧
    (envW.hasPermission .pipeline_deployment .create = true →
      create_deployment envW ⟨0, "dep"⟩ (some "ws") =
        (.ok ⟨7⟩, [.getWorkspace "ws", .permissionCheck .pipeline_deployment .create,
          .storeCreateDeployment ⟨7, "dep"⟩])) ∧
    (envW.hasPermission .code_repository .list = true →
      list_code_repositories envW ⟨none, none⟩ (some "ws") false =
        (.ok [], [.getWorkspace "ws", .permissionCheck .code_repository .list,
          .storeListRepos ⟨some 7, none⟩ false])) ∧
    (envW.hasPermission .pipeline_deployment .list = true →
      list_deployments envW ⟨none, none⟩ (some "ws") false =
        (.ok [], [.getWorkspace "ws", .permissionCheck .pipeline_deployment .list,
          .storeListDeployments ⟨some 7, none⟩ false]))) :=
  ⟨rfl, rfl, by decide,
    workspace_scoping_rewrites_models envW "ws" ⟨7, "ws"⟩ ⟨0, "repo"⟩ ⟨0, "dep"⟩
      ⟨none, none⟩ ⟨none, none⟩ false rfl rfl (by decide)⟩

/-- Witness for C4 at the concrete environment `envW` and concrete inputs. -/
theorem endpoints_verify_permissions_before_store_witness :
    rbacGuard envW.authorized (envW.hasPermission .code_repository .create)
      (create_code_repository envW ⟨0, "repo"⟩ (some "ws")).2 = true ∧
    rbacGuard envW.authorized (envW.hasPermission .code_repository .list)
      (list_code_repositories envW ⟨none, none⟩ (some "ws") true).2 = true ∧
    rbacGuard envW.authorized (envW.hasPermission .code_repository .read)
      (get_code_repository envW 3 true).2 = true ∧
    rbacGuard envW.authorized (envW.hasPermission .code_repository .update)
      (update_code_repository envW 3 ⟨some "n"⟩).2 = true ∧
    rbacGuard envW.authorized (envW.hasPermission .code_repository .delete)
      (delete_code_repository envW 3).2 = true ∧
    rbacGuard envW.authorized (envW.hasPermission .pipeline_deployment .create)
      (create_deployment envW ⟨0, "dep"⟩ (some "ws")).2 = true ∧
    rbacGuard envW.authorized (envW.hasPermission .pipeline_deployment .list)
      (list_deployments envW ⟨none, none⟩ (some "ws") true).2 = true ∧
    rbacGuard envW.authorized (envW.hasPermission .pipeline_deployment .read)
      (get_deployment envW 3 true).2 = true ∧
    rbacGuard envW.authorized (envW.hasPermission .pipeline_deployment .delete)
      (delete_deployment envW 3).2 = true :=
  endpoints_verify_permissions_before_store envW ⟨0, "repo"⟩ ⟨0, "dep"⟩
    ⟨none, none⟩ ⟨none, none⟩ (some "ws") true 3 ⟨some "n"⟩

/-- C6: the deployment log-retrieval route is registered if and only if
`workload_manager_enabled` is true; when the handler runs authorized, with
read permission granted and the deployment existing, it performs the
permission-checked retrieval of the deployment and returns
`workload_manager().get_logs` applied to the retrieved deployment's id. -/
theorem deployment_logs_conditional_and_behavior
    (flag : Bool) (env : Env) (id : Nat) (d : PipelineDeploymentResponse)
    (hauth : env.authorized = true)
    (hp : env.hasPermission .pipeline_deployment .read = true)
    (hd : env.get_deployment id true = some d) :
    ((⟨.get, "/{deployment_id}/logs", none⟩ : Route) ∈
        pipeline_deployments_routes flag ↔ flag = true) ∧
    deployment_logs env id =
      (.ok (env.workload_get_logs d.id),
        [.permissionCheck .pipeline_deployment .read, .storeGetDeployment id true,
          .workloadGetLogs d.id]) := by
  constructor
  · cases flag <;> decide
  · simp [deployment_logs, verify_permissions_and_get_entity, hauth, hp, hd]

/-- Witness for C6 at `envW` (workload manager enabled) and deployment 3. -/
theorem deployment_logs_conditional_and_behavior_witness :
    envW.authorized = true ∧
    envW.hasPermission .pipeline_deployment .read = true ∧
    envW.get_deployment 3 true = some ⟨3⟩ ∧
    (((⟨.get, "/{deployment_id}/logs", none⟩ : Route) ∈
        pipeline_deployments_routes true ↔ true = true) ∧
    deployment_logs envW 3 =
      (.ok "logs", [.permissionCheck .pipeline_deployment .read,
        .storeGetDeployment 3 true, .workloadGetLogs 3])) :=
  ⟨rfl, rfl, rfl,
    deployment_logs_conditional_and_behavior true envW 3 ⟨3⟩ rfl rfl rfl⟩

/-- C8: `create_code_repository`'s docstring declares an IllegalOperationError
for a workspace mismatch, but the handler never raises it: it silently
overwrites the request model's `workspace` field with the URL-resolved
workspace id even when the two differ. -/
theorem create_code_repository_never_raises_illegal_operation :
    "IllegalOperationError" ∈ create_code_repository_docstring_raises ∧
    (∀ env req w, (create_code_repository env req w).1 ≠
      Except.error HandlerErr.illegalOperation) ∧
    (∀ env (req : CodeRepositoryRequest) s wresp,
      env.authorized = true → s.isEmpty = false →
      env.get_workspace s = some wresp → req.workspace ≠ wresp.id →
      env.hasPermission .code_repository .create = true →
      create_code_repository env req (some s) =
        (.ok (env.create_code_repository { req with workspace := wresp.id }),
          [.getWorkspace s, .permissionCheck .code_repository .create,
            .storeCreateRepo { req with workspace := wresp.id }])) := by
  refine ⟨by simp [create_code_repository_docstring_raises], ?_, ?_⟩
  · intro env req w
    cases hauth : env.authorized
    · simp [create_code_repository, hauth]
    · cases w with
      | none =>
        cases hp : env.hasPermission .code_repository .create <;>
          simp [create_code_repository, scopeLookup,
            verify_permissions_and_create_entity, hauth, hp]
      | some s =>
        by_cases hse : s.isEmpty = true
        · cases hp : env.hasPermission .code_repository .create <;>
            simp [create_code_repository, scopeLookup,
              verify_permissions_and_create_entity, hauth, hse, hp]
        · cases hgw : env.get_workspace s
          · simp [create_code_repository, scopeLookup, hauth, hse, hgw]
          · cases hp : env.hasPermission .code_repository .create <;>
              simp [create_code_repository, scopeLookup,
                verify_permissions_and_create_entity, hauth, hse, hgw, hp]
  · intro env req s wresp hauth hs hw hne hp
    simp [create_code_repository, scopeLookup, verify_permissions_and_create_entity,
      hauth, hs, hw, hp]

/-- Witness for C8: at `envW`, a request carrying workspace 0 is created under
workspace 7 (the one resolved from the URL) with no error, despite the
mismatch the docstring says would raise. -/
theorem create_code_repository_never_raises_illegal_operation_witness :
    envW.authorized = true ∧ "ws".isEmpty = false ∧
    envW.get_workspace "ws" = some ⟨7, "ws"⟩ ∧
    (0 : Nat) ≠ (7 : Nat) ∧
    envW.hasPermission .code_repository .create = true ∧
    create_code_repository envW ⟨0, "repo"⟩ (some "ws") =
      (.ok ⟨7⟩, [.getWorkspace "ws", .permissionCheck .code_repository .create,
        .storeCreateRepo ⟨7, "repo"⟩]) :=
  ⟨rfl, rfl, by decide, by decide, rfl,
    create_code_repository_never_raises_illegal_operation.2.2 envW ⟨0, "repo"⟩
      "ws" ⟨7, "ws"⟩ rfl rfl (by decide) (by decide) rfl⟩

/-- C9: with `workspace_name_or_id` absent (None), each of the four handlers
that accept it performs no workspace lookup and passes the incoming request
or filter model to the permission-checked dispatch unchanged. -/
theorem absent_workspace_scope_is_frame (env : Env)
    (req : CodeRepositoryRequest) (dreq : PipelineDeploymentRequest)
    (f : CodeRepositoryFilter) (df : PipelineDeploymentFilter) (hydrate : Bool)
    (hauth : env.authorized = true) :
    (∀ e ∈ (create_code_repository env req none).2, e.isGetWorkspace = false) ∧
    (∀ e ∈ (create_deployment env dreq none).2, e.isGetWorkspace = false) ∧
    (∀ e ∈ (list_code_repositories env f none hydrate).2, e.isGetWorkspace = false) ∧
    (∀ e ∈ (list_deployments env df none hydrate).2, e.isGetWorkspace = false) ∧
    create_code_repository env req none =
      verify_permissions_and_create_entity (env.hasPermission .code_repository .create)
        .code_repository Ev.storeCreateRepo env.create_code_repository req ∧
    create_deployment env dreq none =
      verify_permissions_and_create_entity (env.hasPermission .pipeline_deployment .create)
        .pipeline_deployment Ev.storeCreateDeployment env.create_deployment dreq ∧
    list_code_repositories env f none hydrate =
      verify_permissions_and_list_entities (env.hasPermission .code_repository .list)
        .code_repository Ev.storeListRepos env.list_code_repositories f hydrate ∧
    list_deployments env df none hydrate =
      verify_permissions_and_list_entities (env.hasPermission .pipeline_deployment .list)
        .pipeline_deployment Ev.storeListDeployments env.list_deployments df hydrate := by
  refine ⟨?_, ?_, ?_, ?_, ?_, ?_, ?_, ?_⟩
  · cases hp : env.hasPermission .code_repository .create <;>
      simp [create_code_repository, scopeLookup, verify_permissions_and_create_entity,
        hauth, hp, Ev.isGetWorkspace]
  · cases hp : env.hasPermission .pipeline_deployment .create <;>
      simp [create_deployment, scopeLookup, verify_permissions_and_create_entity,
        hauth, hp, Ev.isGetWorkspace]
  · cases hp : env.hasPermission .code_repository .list <;>
      simp [list_code_repositories, scopeLookup, verify_permissions_and_list_entities,
        hauth, hp, Ev.isGetWorkspace]
  · cases hp : env.hasPermission .pipeline_deployment .list <;>
      simp [list_deployments, scopeLookup, verify_permissions_and_list_entities,
        hauth, hp, Ev.isGetWorkspace]
  · simp [create_code_repository, scopeLookup, hauth]
  · simp [create_deployment, scopeLookup, hauth]
  · simp [list_code_repositories, scopeLookup, hauth]
  · simp [list_deployments, scopeLookup, hauth]

/-- Witness for C9 at `envW`: with the scope argument absent, the store
receives the models exactly as supplied. -/
theorem absent_workspace_scope_is_frame_witness :
    envW.authorized = true ∧
    ((∀ e ∈ (create_code_repository envW ⟨5, "repo"⟩ none).2, e.isGetWorkspace = false) ∧
    (∀ e ∈ (create_deployment envW ⟨5, "dep"⟩ none).2, e.isGetWorkspace = false) ∧
    (∀ e ∈ (list_code_repositories envW ⟨none, some "n"⟩ none true).2,
      e.isGetWorkspace = false) ∧
    (∀ e ∈ (list_deployments envW ⟨none, some "n"⟩ none true).2,
      e.isGetWorkspace = false) ∧
    create_code_repository envW ⟨5, "repo"⟩ none =
      verify_permissions_and_create_entity (envW.hasPermission .code_repository .create)
        .code_repository Ev.storeCreateRepo envW.create_code_repository ⟨5, "repo"⟩ ∧
    create_deployment envW ⟨5, "dep"⟩ none =
      verify_permissions_and_create_entity (envW.hasPermission .pipeline_deployment .create)
        .pipeline_deployment Ev.storeCreateDeployment envW.create_deployment ⟨5, "dep"⟩ ∧
    list_code_repositories envW ⟨none, some "n"⟩ none true =
      verify_permissions_and_list_entities (envW.hasPermission .code_repository .list)
        .code_repository Ev.storeListRepos envW.list_code_repositories ⟨none, some "n"⟩ true ∧
    list_deployments envW ⟨none, some "n"⟩ none true =
      verify_permissions_and_list_entities (envW.hasPermission .pipeline_deployment .list)
        .pipeline_deployment Ev.storeListDeployments envW.list_deployments ⟨none, some "n"⟩ true) :=
  ⟨rfl, absent_workspace_scope_is_frame envW ⟨5, "repo"⟩ ⟨5, "dep"⟩
    ⟨none, some "n"⟩ ⟨none, some "n"⟩ true rfl⟩

/-- C10: the hydrate flag has asymmetric defaults — for every route of either
router that carries a hydrate parameter, the default is True exactly on the
single-entity get routes and False exactly on the list routes. -/
theorem hydrate_defaults_asymmetric (flag : Bool) (r : Route)
    (hr : r ∈ code_repositories_routes ∨ r ∈ pipeline_deployments_routes flag) :
    (r.hydrateDefault = some true ↔
      (r.method = .get ∧
        (r.path = "/{code_repository_id}" ∨ r.path = "/{deployment_id}"))) ∧
    (r.hydrateDefault = some false ↔ (r.method = .get ∧ r.path = "")) := by
  cases flag <;> rcases hr with hr | hr <;> fin_cases hr <;> refine ⟨?_, ?_⟩ <;> decide

/-- Witness for C10 at the single-entity deployment get route. -/
theorem hydrate_defaults_asymmetric_witness :
    ((⟨.get, "/{deployment_id}", some true⟩ : Route) ∈ code_repositories_routes ∨
      (⟨.get, "/{deployment_id}", some true⟩ : Route) ∈ pipeline_deployments_routes true) ∧
    (((⟨.get, "/{deployment_id}", some true⟩ : Route).hydrateDefault = some true ↔
      ((⟨.get, "/{deployment_id}", some true⟩ : Route).method = .get ∧
        ((⟨.get, "/{deployment_id}", some true⟩ : Route).path = "/{code_repository_id}" ∨
          (⟨.get, "/{deployment_id}", some true⟩ : Route).path = "/{deployment_id}"))) ∧
    ((⟨.get, "/{deployment_id}", some true⟩ : Route).hydrateDefault = some false ↔
      ((⟨.get, "/{deployment_id}", some true⟩ : Route).method = .get ∧
        (⟨.get, "/{deployment_id}", some true⟩ : Route).path = ""))) :=
  ⟨Or.inr (by decide),
    hydrate_defaults_asymmetric true ⟨.get, "/{deployment_id}", some true⟩
      (Or.inr (by decide))⟩

end ZenML
